import Mathlib

/-!
Verification development for the vast.ai instance-management scripts.

Shallow embedding of the Python sources:
  * `PortAllocator`  — SCRIPTS/python_scripts/utils/port_allocator.py
  * `TunnelManager`  — SCRIPTS/python_scripts/utils/tunnel_manager.py
  * the SSH-failsafe monitoring loop —
    SCRIPTS/python_scripts/workflows/create_and_monitor.py and
    create_and_monitor_config.py (`start_monitoring_with_failsafe`)
  * the remote status script and its parser —
    SCRIPTS/python_scripts/components/monitor_instance.py
  * the job metadata file updates —
    python_scripts/components/comfyui_api.py

Python dictionaries are modelled as association lists (first match wins,
insertion appends at the end), OS facts (port bindability, process liveness,
clock readings) are explicit functional parameters, and file persistence is a
`disk` copy of the in-memory mapping updated exactly where the Python code
calls `_save_state`.
-/

/-- A Python value used as an instance identifier: the scripts pass either an
`int` (instance id from the API) or a `str` (from `sys.argv`).  Both
`PortAllocator` and `TunnelManager` immediately coerce it with `str(...)`. -/
inductive PyId where
  | int (n : Int)
  | str (s : String)

/-- Python `str(x)` for the two identifier shapes; `str` of a Python `int`
prints the decimal form, which is exactly Lean's `toString` on `Int`. -/
def pyStr : PyId → String
  | .int n => toString n
  | .str s => s

/-- State of `PortAllocator`: the `base_port` configuration, the in-memory
`self.allocations` dict and the last state written to `~/.vai_ports.json`
(`disk`). -/
structure PortAllocator where
  base_port : Nat
  allocations : List (String × Nat)
  disk : List (String × Nat)
deriving DecidableEq, Repr

/-- A freshly constructed allocator with no state file on disk
(`base_port` defaults to 8188). -/
def PortAllocator.empty : PortAllocator :=
  { base_port := 8188, allocations := [], disk := [] }

/-- The scan loop of `_find_next_available_port`: starting at `candidate`,
return the first port that is neither in `allocated` nor rejected by the
bind test `avail`; `fuel` bounds the scan so that running past port 65535
raises (`none`).  Mirrors the `while True` loop of port_allocator.py. -/
def findPortGo (allocated : List Nat) (avail : Nat → Bool) : Nat → Nat → Option Nat
  | 0, _ => none
  | fuel + 1, candidate =>
    if !allocated.contains candidate && avail candidate then some candidate
    else findPortGo allocated avail fuel (candidate + 1)

/-- `PortAllocator._find_next_available_port`: scan upward from `base_port`;
candidates `base_port, …, 65535` are tried, after which the Python code
raises `RuntimeError` (modelled as `none`).  `avail` is the
`_is_port_available` bind test against localhost. -/
def PortAllocator.find_next_available_port (pa : PortAllocator)
    (avail : Nat → Bool) : Option Nat :=
  findPortGo (pa.allocations.map Prod.snd) avail (65536 - pa.base_port) pa.base_port

/-- `PortAllocator.allocate`: coerce the id with `str`, return the existing
allocation unchanged if present, otherwise record and persist the first
available port.  `none` models the `RuntimeError` on port exhaustion (raised
before any mutation). -/
def PortAllocator.allocate (pa : PortAllocator) (instance_id : PyId)
    (avail : Nat → Bool) : Option (Nat × PortAllocator) :=
  let key := pyStr instance_id
  match pa.allocations.lookup key with
  | some existing_port => some (existing_port, pa)
  | none =>
    match pa.find_next_available_port avail with
    | none => none
    | some port =>
      let allocs := pa.allocations ++ [(key, port)]
      some (port, { pa with allocations := allocs, disk := allocs })

/-- `PortAllocator.get_port`: read-only lookup after `str` coercion. -/
def PortAllocator.get_port (pa : PortAllocator) (instance_id : PyId) : Option Nat :=
  pa.allocations.lookup (pyStr instance_id)

/-- `PortAllocator.release`: remove the mapping and persist; returns `False`
without touching anything when the instance has no allocation. -/
def PortAllocator.release (pa : PortAllocator) (instance_id : PyId) :
    Bool × PortAllocator :=
  let key := pyStr instance_id
  if (pa.allocations.lookup key).isSome then
    let allocs := pa.allocations.filter (fun kv => kv.1 != key)
    (true, { pa with allocations := allocs, disk := allocs })
  else
    (false, pa)

/-- `PortAllocator.cleanup_stale_allocations`: drop every key not in
`active_instance_ids` (after `str` coercion) and persist once if anything
was dropped. -/
def PortAllocator.cleanup_stale_allocations (pa : PortAllocator)
    (active_instance_ids : List PyId) : PortAllocator :=
  let active := active_instance_ids.map pyStr
  if pa.allocations.any (fun kv => !active.contains kv.1) then
    let allocs := pa.allocations.filter (fun kv => active.contains kv.1)
    { pa with allocations := allocs, disk := allocs }
  else
    pa

/-- One `PortAllocator` operation of a history; each `allocate` carries the
OS bind-test result in effect during that call. -/
inductive PAOp where
  | alloc (instance_id : PyId) (avail : Nat → Bool)
  | release (instance_id : PyId)

/-- Apply one operation to the allocator state.  A failed `allocate`
(`RuntimeError`) leaves the state unchanged, as the exception propagates
before any mutation. -/
def PAOp.apply (pa : PortAllocator) : PAOp → PortAllocator
  | .alloc instance_id avail =>
    match pa.allocate instance_id avail with
    | some (_, pa') => pa'
    | none => pa
  | .release instance_id => (pa.release instance_id).2

/-- Run a history of operations from the freshly constructed allocator. -/
def PAOp.run (ops : List PAOp) : PortAllocator :=
  ops.foldl PAOp.apply PortAllocator.empty

/-- One persisted tunnel record of `TunnelManager` (`~/.vai_tunnels.json`). -/
structure TunnelInfo where
  local_port : Nat
  ssh_host : String
  ssh_port : Nat
  remote_port : Nat
  pid : Nat
  created_at : String
  ssh_key_path : String
deriving DecidableEq, Repr

/-- State of `TunnelManager`: the tunnel record dict together with its
`PortAllocator` (the tunnel dict is persisted separately from the port map;
we reuse the allocator's own `disk` field for its file). -/
structure TunnelManager where
  tunnels : List (String × TunnelInfo)
  port_allocator : PortAllocator
deriving DecidableEq, Repr

/-- `_cleanup_dead_tunnels`: drop every record whose pid is truthy and no
longer running (`running` is the `os.kill(pid, 0)` probe). -/
def TunnelManager.cleanup_dead_tunnels (tm : TunnelManager)
    (running : Nat → Bool) : TunnelManager :=
  { tm with
    tunnels := tm.tunnels.filter (fun kv => !(kv.2.pid != 0 && !running kv.2.pid)) }

/-- `list_tunnels`: reconcile against process liveness first, then return the
current mapping (and the reconciled state). -/
def TunnelManager.list_tunnels (tm : TunnelManager) (running : Nat → Bool) :
    List (String × TunnelInfo) × TunnelManager :=
  let tm' := tm.cleanup_dead_tunnels running
  (tm'.tunnels, tm')

/-- `get_tunnel`: read-only lookup after `str` coercion. -/
def TunnelManager.get_tunnel (tm : TunnelManager) (instance_id : PyId) :
    Option TunnelInfo :=
  tm.tunnels.lookup (pyStr instance_id)

/-- Outcome of `subprocess.Popen` for the background ssh process: the new
pid and whether the process is still alive after the 2-second grace delay. -/
structure SpawnResult where
  pid : Nat
  aliveAfterGrace : Bool

/-- The tail of `create_tunnel` once any dead record for the key has been
discarded: allocate a port, spawn the tunnel, verify it survived the grace
delay, record and persist on success.  On allocator exhaustion the
`RuntimeError` propagates with no state change (`.error tm`); when the
spawned process dies immediately the allocated port is released and the
error propagates with that post-release state. -/
def TunnelManager.create_tunnel_fresh (tm : TunnelManager) (key : String)
    (ssh_host : String) (ssh_port : Nat) (remote_port : Nat)
    (ssh_key_path : String) (avail : Nat → Bool) (spawn : SpawnResult)
    (now : String) : Except TunnelManager (Nat × TunnelManager) :=
  match tm.port_allocator.allocate (.str key) avail with
  | none => .error tm
  | some (local_port, pa') =>
    if spawn.aliveAfterGrace then
      let info : TunnelInfo :=
        { local_port := local_port, ssh_host := ssh_host, ssh_port := ssh_port
          remote_port := remote_port, pid := spawn.pid, created_at := now
          ssh_key_path := ssh_key_path }
      .ok (local_port,
        { tunnels := tm.tunnels ++ [(key, info)], port_allocator := pa' })
    else
      .error { tm with port_allocator := (pa'.release (.str key)).2 }

/-- `create_tunnel`: coerce the id with `str`; if a record exists and its
process is alive, return its local port unchanged; if the record's process
is dead, discard it and recreate; otherwise create from scratch. -/
def TunnelManager.create_tunnel (tm : TunnelManager) (instance_id : PyId)
    (ssh_host : String) (ssh_port : Nat) (remote_port : Nat)
    (ssh_key_path : String) (running : Nat → Bool) (avail : Nat → Bool)
    (spawn : SpawnResult) (now : String) :
    Except TunnelManager (Nat × TunnelManager) :=
  let key := pyStr instance_id
  match tm.tunnels.lookup key with
  | some existing =>
    if running existing.pid then .ok (existing.local_port, tm)
    else
      TunnelManager.create_tunnel_fresh
        { tm with tunnels := tm.tunnels.filter (fun kv => kv.1 != key) }
        key ssh_host ssh_port remote_port ssh_key_path avail spawn now
  | none =>
    TunnelManager.create_tunnel_fresh tm key ssh_host ssh_port remote_port
      ssh_key_path avail spawn now

/-- What one iteration of the failsafe monitoring loop observes.
`noRecord` : `get_instance_info()` returned nothing (API error or instance
missing from the list).  `noSsh` : the record was fetched but
`get_ssh_info` returned `None` (status not "running" or host/port absent).
`script` : SSH info was available and `execute_remote_script` returned
output characterized by whether it contains one of the connection-error
tags `SSH_NOT_READY`/`SSH_ERROR`/`SSH_AUTH_ERROR`, whether it contains
`STATUS:`, and the parsed status field. -/
inductive PollOutcome where
  | noRecord
  | noSsh
  | script (hasErrTag : Bool) (hasStatusLine : Bool) (status : String)
deriving DecidableEq, Repr

/-- Final result of `start_monitoring_with_failsafe`: `ready` is the only
`True` return; `destroyed` is the failsafe path (destroy issued, `False`);
`errorStatus` is the `status == 'ERROR'` return (`False`); `timeout` is the
60-minute budget expiry (`False`); `exhausted` marks a run observed for
finitely many polls that was still looping. -/
inductive GuardResult where
  | ready
  | errorStatus
  | destroyed
  | timeout
  | exhausted
deriving DecidableEq, Repr

/-- `True`/`False` return value of the Python function per result. -/
def GuardResult.isSuccess : GuardResult → Bool
  | .ready => true
  | _ => false

/-- Result of one loop iteration: either continue with a new failure-timer
state, or stop with a result and the number of destroy requests issued at
that stop. -/
inductive StepRes where
  | cont (failStart : Option Nat)
  | halt (r : GuardResult) (destroys : Nat)
deriving DecidableEq, Repr

/-- One iteration of the loop in `create_and_monitor.py`'s
`start_monitoring_with_failsafe` (lines 49–165).  `startTime` and `t` are
`time.time()` readings in whole seconds (all readings within one iteration
are identified — they differ by far less than any threshold involved).
`failStart` is `ssh_fail_start_time`.  Key points mirrored from the source:
the `noRecord` branch retries without touching the timer (lines 51–55); the
`noSsh` branch starts/continues the timer (lines 65–92); once SSH info is
available the timer is reset (lines 94–98) *before* the output is checked
for error tags (line 108), so an error-tag poll restarts the timer at the
current reading; a clean output resets the timer and dispatches on the
parsed status. -/
def guardStep (startTime : Nat) (failStart : Option Nat) (t : Nat)
    (p : PollOutcome) : StepRes :=
  if t < startTime + 3600 then
    match p with
    | .noRecord => .cont failStart
    | .noSsh =>
      if 180 ≤ t - failStart.getD t then .halt .destroyed 1
      else .cont (some (failStart.getD t))
    | .script hasErrTag hasStatusLine status =>
      if hasErrTag then
        if 180 ≤ t - t then .halt .destroyed 1 else .cont (some t)
      else if !hasStatusLine then .cont none
      else if status == "READY" then .halt .ready 0
      else if status == "ERROR" then .halt .errorStatus 0
      else .cont none
  else .halt .timeout 0

/-- One iteration of the loop in `create_and_monitor_config.py` (lines
139–264).  Identical to `guardStep` except that obtaining SSH info does
*not* reset the timer (lines 189–190: "don't reset timer until actual SSH
works"), so consecutive error-tag polls accumulate failure time. -/
def guardStepCfg (startTime : Nat) (failStart : Option Nat) (t : Nat)
    (p : PollOutcome) : StepRes :=
  if t < startTime + 3600 then
    match p with
    | .noRecord => .cont failStart
    | .noSsh =>
      if 180 ≤ t - failStart.getD t then .halt .destroyed 1
      else .cont (some (failStart.getD t))
    | .script hasErrTag hasStatusLine status =>
      if hasErrTag then
        if 180 ≤ t - failStart.getD t then .halt .destroyed 1
        else .cont (some (failStart.getD t))
      else if !hasStatusLine then .cont none
      else if status == "READY" then .halt .ready 0
      else if status == "ERROR" then .halt .errorStatus 0
      else .cont none
  else .halt .timeout 0

/-- Result and total destroy-request count of a guard run. -/
structure GuardOutcome where
  result : GuardResult
  destroys : Nat
deriving DecidableEq, Repr

/-- Run the `create_and_monitor.py` loop over a trace of timestamped poll
outcomes; a run whose trace ends while still looping is `exhausted`. -/
def runGuard (startTime : Nat) (failStart : Option Nat) :
    List (Nat × PollOutcome) → GuardOutcome
  | [] => { result := .exhausted, destroys := 0 }
  | (t, p) :: rest =>
    match guardStep startTime failStart t p with
    | .halt r d => { result := r, destroys := d }
    | .cont fs => runGuard startTime fs rest

/-- Run the `create_and_monitor_config.py` loop over a trace. -/
def runGuardCfg (startTime : Nat) (failStart : Option Nat) :
    List (Nat × PollOutcome) → GuardOutcome
  | [] => { result := .exhausted, destroys := 0 }
  | (t, p) :: rest =>
    match guardStepCfg startTime failStart t p with
    | .halt r d => { result := r, destroys := d }
    | .cont fs => runGuardCfg startTime fs rest

/-- A poll whose remote script result is the `SSH_NOT_READY` output
(`"STATUS: SSH_NOT_READY\nDETAILS: ..."`): it contains an error tag and a
`STATUS:` line. -/
def sshNotReadyPoll (t : Nat) : Nat × PollOutcome :=
  (t, .script true true "SSH_NOT_READY")

/-- Twenty consecutive `SSH_NOT_READY` polls at the 10-second interval,
spanning 190 seconds of continuous SSH-level failure (beyond the 3-minute
threshold). -/
def sshNotReadyTrace : List (Nat × PollOutcome) :=
  (List.range 20).map (fun i => sshNotReadyPoll (10 * i))

/-- Python `pat in s` on character lists: `pat` occurs as a contiguous
substring of `s`. -/
def subOccurs (pat : List Char) : List Char → Bool
  | [] => pat.isPrefixOf ([] : List Char)
  | c :: rest => pat.isPrefixOf (c :: rest) || subOccurs pat rest

/-- Python `pat in s` on strings. -/
def pyIn (pat s : String) : Bool := subOccurs pat.data s.data

/-- Python `s.startswith(pre)`. -/
def pyStartsWith (s pre : String) : Bool := pre.data.isPrefixOf s.data

/-- Python `s[n:]`. -/
def pyDrop (s : String) (n : Nat) : String := ⟨s.data.drop n⟩

/-- Python `s.strip()`: remove leading and trailing whitespace. -/
def pyStrip (s : String) : String :=
  ⟨((s.data.dropWhile Char.isWhitespace).reverse.dropWhile Char.isWhitespace).reverse⟩

/-- Python `s.lstrip('\n')`: remove leading newline characters only. -/
def pyLstripNewlines (s : String) : String :=
  ⟨s.data.dropWhile (fun c => c == '\n')⟩

/-- Replacement engine for Python `s.replace(pat, repl)` (leftmost,
non-overlapping); the fuel is the length of the subject, which each step
consumes at least one character of whenever `pat` is nonempty. -/
def replaceAux (pat repl : List Char) : Nat → List Char → List Char
  | 0, s => s
  | fuel + 1, s =>
    if !pat.isEmpty && pat.isPrefixOf s then
      repl ++ replaceAux pat repl fuel (s.drop pat.length)
    else
      match s with
      | [] => []
      | c :: rest => c :: replaceAux pat repl fuel rest

/-- Python `s.replace(pat, repl)` for nonempty `pat`. -/
def pyReplace (s pat repl : String) : String :=
  ⟨replaceAux pat.data repl.data s.data.length s.data⟩

/-- First-occurrence split: Python `s.split(pat, 1)` succeeding, i.e. the
text before the first occurrence of `pat` and the text after it. -/
def splitFirstAux (pat : List Char) : List Char → Option (List Char × List Char)
  | [] => if pat.isPrefixOf ([] : List Char) then some ([], []) else none
  | c :: rest =>
    if pat.isPrefixOf (c :: rest) then some ([], (c :: rest).drop pat.length)
    else (splitFirstAux pat rest).map (fun q => (c :: q.1, q.2))

/-- Python `s.split(pat, 1)` when it actually splits (two parts); `none`
when `pat` does not occur. -/
def splitFirst (pat s : String) : Option (String × String) :=
  (splitFirstAux pat.data s.data).map (fun q => (⟨q.1⟩, ⟨q.2⟩))

/-- Python `s.lower()` (the log lines involved are ASCII). -/
def pyLower (s : String) : String := ⟨s.data.map Char.toLower⟩

/-- The job metadata file of comfyui_api.py, split at the fixed
`=== LIVE TERMINAL OUTPUT ===` delimiter: the JSON header fields that the
update functions touch, and the appended log section (`body`, the bytes
after the delimiter line). -/
structure JobLogFile where
  status : String
  last_updated : String
  completion_timestamp : Option String
  total_duration : Option String
  total_duration_seconds : Option Nat
  queue_time : Option String
  execution_time : Option String
  execution_start_time : Option String
  current_duration : Option String
  body : String
deriving DecidableEq, Repr

/-- The file as written by `create_job_log_file`: status `queued`, empty
performance fields, empty log section. -/
def createJobLogFile : JobLogFile :=
  { status := "queued", last_updated := "", completion_timestamp := none
    total_duration := none, total_duration_seconds := none, queue_time := none
    execution_time := none, execution_start_time := none
    current_duration := none, body := "" }

/-- Render `total_duration_seconds` the way `update_job_status` does
(`f"{minutes}m {seconds}s"`, durations in whole seconds). -/
def fmtDuration (d : Nat) : String :=
  toString (d / 60) ++ "m " ++ toString (d % 60) ++ "s"

/-- `ComfyUIController.update_job_status`: set the status and `last_updated`
header fields, add the duration fields when a terminal status arrives with a
truthy duration, and rewrite the file — which re-emits the header and then
the old log section with its leading newlines stripped
(`parts[1].lstrip('\n')`, comfyui_api.py line 761). -/
def update_job_status (f : JobLogFile) (new_status : String)
    (total_duration_seconds : Option Nat) (now : String) : JobLogFile :=
  let f := { f with status := new_status, last_updated := now }
  let f :=
    match total_duration_seconds with
    | some d =>
      if (new_status == "completed" || new_status == "failed" ||
          new_status == "timeout") && d != 0 then
        { f with total_duration := some (fmtDuration d)
                 total_duration_seconds := some d
                 completion_timestamp := some now }
      else f
    | none => f
  { f with body := pyLstripNewlines f.body }

/-- The `updates` dict passed to `update_job_performance_metrics`: present
keys are `some`. -/
structure PerfUpdates where
  status : Option String := none
  last_updated : Option String := none
  queue_time : Option String := none
  execution_time : Option String := none
  execution_start_time : Option String := none
  current_duration : Option String := none

/-- `ComfyUIController.update_job_performance_metrics`: overwrite exactly the
header fields present in `updates`, then rewrite the file with the same
`lstrip('\n')` treatment of the log section (comfyui_api.py line 809). -/
def update_job_performance_metrics (f : JobLogFile) (u : PerfUpdates) :
    JobLogFile :=
  { f with
    status := u.status.getD f.status
    last_updated := u.last_updated.getD f.last_updated
    queue_time := (u.queue_time.map some).getD f.queue_time
    execution_time := (u.execution_time.map some).getD f.execution_time
    execution_start_time :=
      (u.execution_start_time.map some).getD f.execution_start_time
    current_duration := (u.current_duration.map some).getD f.current_duration
    body := pyLstripNewlines f.body }

/-- `ComfyUIController.append_terminal_output`: append each non-blank line,
stripped and prefixed with the timestamp, to the log section. -/
def append_terminal_output (f : JobLogFile) (new_lines : List String)
    (timestamp : String) : JobLogFile :=
  { f with
    body := f.body ++ String.join
      ((new_lines.filter (fun l => pyStrip l != "")).map
        (fun l => "[" ++ timestamp ++ "] " ++ pyStrip l ++ "\n")) }

/-- `ComfyUIController.append_execution_summary`: append the summary block —
note the leading `"\n"` before the `=== EXECUTION SUMMARY ===` banner
(comfyui_api.py line 985). -/
def append_execution_summary (f : JobLogFile) (summaryJson : String) :
    JobLogFile :=
  { f with
    body := f.body ++ "\n=== EXECUTION SUMMARY ===\n" ++ summaryJson ++ "\n" }

/-- What one iteration of `monitor_job_progress` observes: whether the job
id is present in the ComfyUI history (the completion signal) and the log
lines newly appended since the previous poll. -/
structure JobPoll where
  historyFound : Bool
  newLines : List String

/-- The execution-start indicators scanned for in the *new* log lines
(comfyui_api.py lines 900–903), matched against the lowercased line. -/
def execIndicators : List String :=
  ["got prompt", "processing", "requested to load", "% | ", "|██", "it/s]"]

/-- `any(indicator in line.lower() for indicator in [...])`. -/
def lineHasExecMarker (l : String) : Bool :=
  execIndicators.any (fun ind => pyIn ind (pyLower l))

/-- The sequence of status values written by the polling loop of
`monitor_job_progress`, with `executionStarted` the `execution_started`
flag: in each iteration the execution-start scan (writing `executing` at
most once) precedes the history check (writing `completed` and returning);
a run whose budget expires writes `timeout` after the loop. -/
def statusWrites : List JobPoll → Bool → List String
  | [], _ => ["timeout"]
  | poll :: rest, executionStarted =>
    if !executionStarted && poll.newLines.any lineHasExecMarker then
      if poll.historyFound then ["executing", "completed"]
      else "executing" :: statusWrites rest true
    else
      if poll.historyFound then ["completed"]
      else statusWrites rest executionStarted

/-- All status values `monitor_job_progress` writes into the metadata file,
in order: the unconditional initial `running` (line 865) followed by the
writes of the polling loop. -/
def monitor_job_status_writes (polls : List JobPoll) : List String :=
  "running" :: statusWrites polls false

/-- Position of a status in the job lifecycle
(queued → running → executing → terminal). -/
def statusRank : String → Nat
  | "queued" => 0
  | "running" => 1
  | "executing" => 2
  | "completed" => 3
  | "failed" => 3
  | "cancelled" => 3
  | "timeout" => 3
  | _ => 0

/-- Abstract state of the remote instance as observed by the status script
of `create_status_script`: whether the sentinel file `/.provisioning`
exists, and the lines of `/var/log/onstart.log` (`none` when the log file
does not exist yet). -/
structure RemoteEnv where
  provisioningSentinel : Bool
  onstartLog : Option (List String)
  elapsed : Nat
  urls : List (String × String)
  storageRest : String

/-- `grep -q marker "$ONSTART_LOG" 2>/dev/null`: some line of the log
contains the marker (false when the log file is missing). -/
def hasMarker (log : List String) (marker : String) : Bool :=
  log.any (fun l => pyIn marker l)

/-- One line matching the `grep` pattern `Downloading.*model(s) to`: an
occurrence of `Downloading` with `model(s) to` somewhere after it. -/
def matchAfter (a b : List Char) : List Char → Bool
  | [] => a.isPrefixOf ([] : List Char) && subOccurs b ([] : List Char)
  | c :: rest =>
    (a.isPrefixOf (c :: rest) && subOccurs b ((c :: rest).drop a.length)) ||
      matchAfter a b rest

/-- The downloading marker of the status script. -/
def downloadLineMarker (l : String) : Bool :=
  matchAfter "Downloading".data "model(s) to".data l.data

/-- `grep -c "✓ Downloaded to:"`: number of matching lines. -/
def downloadsCompleted (log : List String) : Nat :=
  (log.filter (fun l => pyIn "✓ Downloaded to:" l)).length

/-- `tail -n n`. -/
def tailN (n : Nat) (l : List String) : List String := l.drop (l.length - n)

/-- `sed 's/^/  /'`. -/
def indent2 (l : String) : String := "  " ++ l

/-- `get_elapsed_time`: prints an `ELAPSED_TIME:` line only when the log
file exists; minutes are shown only when nonzero. -/
def elapsedLines (env : RemoteEnv) : List String :=
  match env.onstartLog with
  | none => []
  | some _ =>
    if 0 < env.elapsed / 60 then
      ["ELAPSED_TIME: " ++ (toString (env.elapsed / 60) ++ ("m " ++
        (toString (env.elapsed % 60) ++ "s")))]
    else ["ELAPSED_TIME: " ++ (toString (env.elapsed % 60) ++ "s")]

/-- The service labels `get_tunnel_urls` can emit for a discovered URL. -/
def urlServiceLabel : String → String
  | "ComfyUI" => "ComfyUI: "
  | "Portal" => "Portal: "
  | "Jupyter" => "Jupyter: "
  | "Syncthing" => "Syncthing: "
  | "Active" => "Active: "
  | _ => "Tunnel: "

/-- `get_tunnel_urls`: the `TUNNEL_URLS:` banner followed by one
`<service>: <url>` line per discovered tunnel URL (the URLs are extracted
by `grep -o 'https://[^[:space:]]*...'`, hence contain no whitespace). -/
def tunnelUrlsLines (env : RemoteEnv) : List String :=
  "TUNNEL_URLS:" :: env.urls.map (fun su => urlServiceLabel su.1 ++ su.2)

/-- `get_storage_info`: the `STORAGE_INFO:` banner and the awk summary line,
which always begins with `Used: `. -/
def storageLines (env : RemoteEnv) : List String :=
  ["STORAGE_INFO:", "Used: " ++ env.storageRest]

/-- The `CURRENT_DOWNLOAD:` section of the DOWNLOADING branch: the last two
progress/speed lines, falling back to the last two initialization/wait
messages, omitted when neither exists. -/
def currentDownloadLines (log : List String) : List String :=
  if log.filter (fun l => pyIn "Progress:" l || pyIn "Speed:" l) != [] then
    "CURRENT_DOWNLOAD:" ::
      (tailN 2 (log.filter (fun l =>
        pyIn "Progress:" l || pyIn "Speed:" l))).map indent2
  else if log.filter (fun l =>
      pyIn "Downloading with HF Transfer" l || pyIn "[Initializing" l ||
        pyIn "[Waiting" l || pyIn "[Monitor" l) != [] then
    "CURRENT_DOWNLOAD:" ::
      (tailN 2 (log.filter (fun l =>
        pyIn "Downloading with HF Transfer" l || pyIn "[Initializing" l ||
          pyIn "[Waiting" l || pyIn "[Monitor" l))).map indent2
  else []

/-- The stdout lines of the remote status script of `create_status_script`,
as a function of the remote state: the `if`/`elif` chain of the bash script
in its exact priority order (READY, STARTING_APP, DOWNLOADING,
PROVISIONING, INITIALIZING), each branch echoing its sections. -/
def create_status_script_output (env : RemoteEnv) : List String :=
  if hasMarker (env.onstartLog.getD []) "To see the GUI go to:" then
    "STATUS: READY" :: "DETAILS: ComfyUI is fully loaded and running" ::
      (elapsedLines env ++ (tunnelUrlsLines env ++ (storageLines env ++
        ("LAST_LOG:" :: (tailN 3 (env.onstartLog.getD [])).map indent2))))
  else if hasMarker (env.onstartLog.getD []) "Provisioning complete!" then
    "STATUS: STARTING_APP" ::
      "DETAILS: Provisioning complete, ComfyUI starting up" ::
      (elapsedLines env ++ (tunnelUrlsLines env ++ (storageLines env ++
        ("LAST_LOG:" :: (tailN 5 (env.onstartLog.getD [])).map indent2))))
  else if (env.onstartLog.getD []).any downloadLineMarker then
    "STATUS: DOWNLOADING" ::
      ("DETAILS: Downloading models (" ++
        (toString (downloadsCompleted (env.onstartLog.getD [])) ++
          " completed)")) ::
      (elapsedLines env ++ (currentDownloadLines (env.onstartLog.getD []) ++
        (storageLines env ++
          ("LAST_LOG:" :: (tailN 3 (env.onstartLog.getD [])).map indent2))))
  else if env.provisioningSentinel ||
      hasMarker (env.onstartLog.getD []) "Provisioning container" then
    "STATUS: PROVISIONING" :: "DETAILS: Running initial provisioning script" ::
      (elapsedLines env ++ (storageLines env ++
        ("LAST_LOG:" :: (tailN 5 (env.onstartLog.getD [])).map indent2)))
  else
    "STATUS: INITIALIZING" ::
      "DETAILS: Instance booting up, waiting for services to start" ::
      (storageLines env ++
        (match env.onstartLog with
         | none => []
         | some l => "LAST_LOG:" :: (tailN 3 l).map indent2))

/-- The sections tracked by `current_section` in `parse_status_output`. -/
inductive OutSection where
  | urls
  | log
  | download
  | error
  | storage
deriving DecidableEq, Repr

/-- The structured result of `parse_status_output` (`status_data`). -/
structure StatusData where
  status : String
  details : String
  tunnel_urls : List (String × String)
  last_log : List String
  current_download : String
  error_details : List String
  storage_info : String
  elapsed_time : String
deriving DecidableEq, Repr

/-- The initial `status_data` dict. -/
def initStatusData : StatusData :=
  { status := "UNKNOWN", details := "", tunnel_urls := [], last_log := []
    current_download := "", error_details := [], storage_info := ""
    elapsed_time := "" }

/-- One iteration of the `for line in lines` loop of `parse_status_output`:
the exact `if`/`elif` chain over the current line and section. -/
def parseStatusLine (acc : StatusData × Option OutSection) (line : String) :
    StatusData × Option OutSection :=
  if pyStartsWith line "STATUS:" then
    ({ acc.1 with status := pyReplace line "STATUS: " "" }, acc.2)
  else if pyStartsWith line "DETAILS:" then
    ({ acc.1 with details := pyReplace line "DETAILS: " "" }, acc.2)
  else if pyStartsWith line "ELAPSED_TIME:" then
    ({ acc.1 with elapsed_time := pyReplace line "ELAPSED_TIME: " "" }, acc.2)
  else if pyStartsWith line "TUNNEL_URLS:" then (acc.1, some .urls)
  else if pyStartsWith line "LAST_LOG:" then (acc.1, some .log)
  else if pyStartsWith line "CURRENT_DOWNLOAD:" then (acc.1, some .download)
  else if pyStartsWith line "ERROR_DETAILS:" then (acc.1, some .error)
  else if pyStartsWith line "STORAGE_INFO:" then (acc.1, some .storage)
  else if acc.2 == some .urls && line.data.contains ':' then
    match splitFirst ": " line with
    | some q => ({ acc.1 with tunnel_urls := acc.1.tunnel_urls ++ [q] }, acc.2)
    | none => (acc.1, acc.2)
  else if acc.2 == some .log && pyStartsWith line "  " then
    ({ acc.1 with last_log := acc.1.last_log ++ [pyDrop line 2] }, acc.2)
  else if acc.2 == some .download && pyStartsWith line "  " then
    ({ acc.1 with
        current_download := acc.1.current_download ++ pyDrop line 2 ++ "\n" },
      acc.2)
  else if acc.2 == some .error && pyStartsWith line "  " then
    ({ acc.1 with error_details := acc.1.error_details ++ [pyDrop line 2] },
      acc.2)
  else if acc.2 == some .storage && pyStrip line != "" then
    ({ acc.1 with storage_info := pyStrip line }, acc.2)
  else (acc.1, acc.2)

/-- `parse_status_output` on the line list obtained from
`output.split('\n')`. -/
def parse_status_output (lines : List String) : StatusData :=
  (lines.foldl parseStatusLine (initStatusData, none)).1

/-- Allocator state after `allocate("7")` from a fresh allocator with every
port bindable. -/
def paW : PortAllocator :=
  { base_port := 8188, allocations := [("7", 8188)], disk := [("7", 8188)] }

/-- A port allocator that has port 8188 allocated to instance "1". -/
def paC4 : PortAllocator :=
  { base_port := 8188, allocations := [("1", 8188)], disk := [("1", 8188)] }

/-- A tunnel record for instance "1" on local port 8188 with pid 5555. -/
def tunC4 : TunnelInfo :=
  { local_port := 8188, ssh_host := "ssh4.vast.ai", ssh_port := 22
    remote_port := 8188, pid := 5555, created_at := "t0", ssh_key_path := "k" }

/-- A tunnel manager tracking the single tunnel of instance "1", whose port
allocator maps "1" to 8188. -/
def tmC4 : TunnelManager :=
  { tunnels := [("1", tunC4)], port_allocator := paC4 }

/-- A job metadata file right after a completion with no captured terminal
output: the status update leaves the log section empty and
`append_execution_summary` then makes it begin with a newline. -/
def jobFileAfterSummary : JobLogFile :=
  append_execution_summary
    (update_job_status createJobLogFile "completed" (some 5) "T1") "summary"

/-- A remote state in which all application-level markers are present at
once, for evaluating the priority order on a concrete input. -/
def envAllMarkers : RemoteEnv :=
  { provisioningSentinel := true
    onstartLog := some
      ["Provisioning container started"
      , "Downloading 3 model(s) to /models"
      , "Provisioning complete!"
      , "To see the GUI go to: http://localhost:8188"]
    elapsed := 61
    urls := [("ComfyUI", "https://example.trycloudflare.com")]
    storageRest := "10G / 100G (10% used, 90G available)" }

/-- `List.lookup` hits are members of the list. -/
theorem alist_lookup_mem {α β : Type} [BEq α] [LawfulBEq α]
    {l : List (α × β)} {k : α} {v : β} (h : l.lookup k = some v) : (k, v) ∈ l := by
  induction l with
  | nil => simp [List.lookup] at h
  | cons hd tl ih =>
    obtain ⟨a, b⟩ := hd
    rw [List.lookup] at h
    by_cases hk : k == a
    · simp only [hk] at h
      cases h
      have : k = a := by
        have := hk
        simp_all
      simp [this]
    · simp only [Bool.not_eq_true] at hk
      simp only [hk] at h
      exact List.mem_cons_of_mem _ (ih h)

/-- `List.lookup` misses are exactly absence from the key column. -/
theorem alist_lookup_none_iff {α β : Type} [BEq α] [LawfulBEq α]
    {l : List (α × β)} {k : α} :
    l.lookup k = none ↔ k ∉ l.map Prod.fst := by
  induction l with
  | nil => simp [List.lookup]
  | cons hd tl ih =>
    obtain ⟨a, b⟩ := hd
    rw [List.lookup]
    by_cases hk : k == a
    · have : k = a := by simp_all
      simp [hk, this]
    · simp only [Bool.not_eq_true] at hk
      have hne : k ≠ a := by
        intro h
        subst h
        simp at hk
      simp [hk, hne, ih]

/-- Appending a fresh binding at the end makes it the lookup result. -/
theorem alist_lookup_append_self {α β : Type} [BEq α] [LawfulBEq α]
    {l : List (α × β)} {k : α} (v : β) (h : l.lookup k = none) :
    (l ++ [(k, v)]).lookup k = some v := by
  induction l with
  | nil => simp [List.lookup]
  | cons hd tl ih =>
    obtain ⟨a, b⟩ := hd
    rw [List.lookup] at h
    by_cases hk : k == a
    · simp [hk] at h
    · simp only [Bool.not_eq_true] at hk
      simp only [hk] at h
      rw [List.cons_append, List.lookup]
      simp [hk, ih h]

/-- The port returned by the scan loop is never one of the already
allocated ports. -/
theorem findPortGo_not_mem {allocated : List Nat} {avail : Nat → Bool}
    {fuel cand p : Nat} (h : findPortGo allocated avail fuel cand = some p) :
    p ∉ allocated := by
  induction fuel generalizing cand with
  | zero => simp [findPortGo] at h
  | succ n ih =>
    rw [findPortGo] at h
    by_cases hc : !allocated.contains cand && avail cand
    · rw [if_pos hc] at h
      cases h
      simp only [Bool.and_eq_true, Bool.not_eq_true'] at hc
      simpa using hc.1
    · rw [if_neg hc] at h
      exact ih h

/-- The port returned by `_find_next_available_port` is not currently
allocated to any instance. -/
theorem find_next_available_port_fresh {pa : PortAllocator}
    {avail : Nat → Bool} {p : Nat}
    (h : pa.find_next_available_port avail = some p) :
    p ∉ pa.allocations.map Prod.snd :=
  findPortGo_not_mem h

/-- `allocate` preserves distinctness of the allocated ports. -/
theorem allocate_preserves_port_nodup {pa : PortAllocator} {id : PyId}
    {avail : Nat → Bool}
    (h : (pa.allocations.map Prod.snd).Nodup) :
    (((PAOp.alloc id avail).apply pa).allocations.map Prod.snd).Nodup := by
  rw [PAOp.apply, PortAllocator.allocate]
  cases hl : pa.allocations.lookup (pyStr id) with
  | some q => simpa using h
  | none =>
    cases hf : pa.find_next_available_port avail with
    | none => simpa using h
    | some p =>
      have hfresh := find_next_available_port_fresh hf
      simp only [List.map_append, List.map_cons, List.map_nil]
      rw [List.nodup_append]
      refine ⟨h, List.nodup_singleton p, ?_⟩
      intro x hx hx'
      simp only [List.mem_singleton] at hx'
      subst hx'
      exact hfresh hx

/-- `release` preserves distinctness of the allocated ports. -/
theorem release_preserves_port_nodup {pa : PortAllocator} {id : PyId}
    (h : (pa.allocations.map Prod.snd).Nodup) :
    (((PAOp.release id).apply pa).allocations.map Prod.snd).Nodup := by
  rw [PAOp.apply, PortAllocator.release]
  by_cases hl : (pa.allocations.lookup (pyStr id)).isSome
  · rw [if_pos hl]
    exact h.sublist (List.Sublist.map _ (List.filter_sublist _))
  · rw [if_neg hl]
    exact h

/-- Every state reachable by a history of allocate/release operations from
the fresh allocator has pairwise-distinct allocated ports. -/
theorem run_port_nodup (ops : List PAOp) :
    (((PAOp.run ops)).allocations.map Prod.snd).Nodup := by
  rw [PAOp.run]
  have base : ((PortAllocator.empty).allocations.map Prod.snd).Nodup := by
    simp [PortAllocator.empty]
  generalize PortAllocator.empty = pa at base ⊢
  induction ops generalizing pa with
  | nil => simpa using base
  | cons op rest ih =>
    rw [List.foldl_cons]
    apply ih
    cases op with
    | alloc id avail => exact allocate_preserves_port_nodup base
    | release id => exact release_preserves_port_nodup base

/-- C6: after any history of allocate/release operations starting from the
empty allocation map, the instance-to-port mapping is injective — two
distinct currently-allocated instance identifiers never share a port. -/
theorem portAllocator_ports_injective (ops : List PAOp) (k1 k2 : String)
    (p1 p2 : Nat) (hk : k1 ≠ k2)
    (h1 : (PAOp.run ops).allocations.lookup k1 = some p1)
    (h2 : (PAOp.run ops).allocations.lookup k2 = some p2) : p1 ≠ p2 := by
  intro hp
  subst hp
  have hm1 := alist_lookup_mem h1
  have hm2 := alist_lookup_mem h2
  have hnd := run_port_nodup ops
  have := List.inj_on_of_nodup_map hnd hm1 hm2 rfl
  exact hk (congrArg Prod.fst this)

/-- Witness for C6: allocating "1" then "2" yields the distinct ports 8188
and 8189. -/
theorem portAllocator_ports_injective_witness : (8188 : Nat) ≠ 8189 :=
  portAllocator_ports_injective
    [PAOp.alloc (.str "1") (fun _ => true), PAOp.alloc (.str "2") (fun _ => true)]
    "1" "2" 8188 8189 (by decide) (by decide) (by decide)

/-- C8: a second `allocate` for the same instance with no intervening
`release` returns the same port and returns the state (both the in-memory
mapping and the persisted `disk` copy) unchanged, whatever the OS bind test
says the second time. -/
theorem allocate_idempotent (pa : PortAllocator) (id : PyId)
    (a1 a2 : Nat → Bool) (p : Nat) (pa' : PortAllocator)
    (h : pa.allocate id a1 = some (p, pa')) :
    pa'.allocate id a2 = some (p, pa') := by
  rw [PortAllocator.allocate] at h
  cases hl : pa.allocations.lookup (pyStr id) with
  | some q =>
    rw [hl] at h
    simp only [Option.some.injEq, Prod.mk.injEq] at h
    obtain ⟨hq, hpa⟩ := h
    subst hq
    subst hpa
    rw [PortAllocator.allocate, hl]
  | none =>
    rw [hl] at h
    cases hf : pa.find_next_available_port a1 with
    | none => rw [hf] at h; simp at h
    | some port =>
      rw [hf] at h
      simp only [Option.some.injEq, Prod.mk.injEq] at h
      obtain ⟨hq, hpa⟩ := h
      subst hq
      subst hpa
      rw [PortAllocator.allocate]
      simp only
      rw [alist_lookup_append_self _ hl]

/-- Witness for C8: re-allocating "7" returns port 8188 and the unchanged
one-entry state. -/
theorem allocate_idempotent_witness :
    paW.allocate (.str "7") (fun _ => false) = some (8188, paW) :=
  allocate_idempotent PortAllocator.empty (.str "7") (fun _ => true)
    (fun _ => false) 8188 paW (by decide)

/-- C10: every `PortAllocator` and `TunnelManager` entry point coerces the
instance identifier with `str(...)` before use, so passing the Python int
`n` and passing the string `str(n)` are indistinguishable. -/
theorem instance_id_string_coercion (n : Int) (pa : PortAllocator)
    (tm : TunnelManager) (avail : Nat → Bool) (host : String) (sp rp : Nat)
    (kp : String) (running : Nat → Bool) (spawn : SpawnResult) (now : String) :
    pa.allocate (.int n) avail = pa.allocate (.str (toString n)) avail ∧
    pa.release (.int n) = pa.release (.str (toString n)) ∧
    pa.get_port (.int n) = pa.get_port (.str (toString n)) ∧
    tm.get_tunnel (.int n) = tm.get_tunnel (.str (toString n)) ∧
    tm.create_tunnel (.int n) host sp rp kp running avail spawn now =
      tm.create_tunnel (.str (toString n)) host sp rp kp running avail spawn now :=
  ⟨rfl, rfl, rfl, rfl, rfl⟩

/-- Lookup misses survive any filtering. -/
theorem alist_lookup_filter_none {α β : Type} [BEq α] [LawfulBEq α]
    {l : List (α × β)} {k : α} (q : α × β → Bool)
    (h : k ∉ l.map Prod.fst) : (l.filter q).lookup k = none := by
  rw [alist_lookup_none_iff]
  intro hmem
  apply h
  simp only [List.mem_map] at hmem ⊢
  obtain ⟨x, hx, hfst⟩ := hmem
  exact ⟨x, List.mem_of_mem_filter hx, hfst⟩

/-- With pairwise-distinct keys, filtering out the entry a lookup returns
makes the key disappear. -/
theorem alist_lookup_filter_of_nodup {α β : Type} [BEq α] [LawfulBEq α]
    {l : List (α × β)} {k : α} {v : β} (q : α × β → Bool)
    (hnd : (l.map Prod.fst).Nodup) (h : l.lookup k = some v)
    (hq : q (k, v) = false) : (l.filter q).lookup k = none := by
  induction l with
  | nil => simp [List.lookup] at h
  | cons hd tl ih =>
    obtain ⟨a, b⟩ := hd
    rw [List.lookup] at h
    simp only [List.map_cons, List.nodup_cons] at hnd
    by_cases hk : k == a
    · have hka : k = a := by simp_all
      subst hka
      simp only [beq_self_eq_true] at h
      cases h
      rw [List.filter_cons, hq]
      exact alist_lookup_filter_none q hnd.1
    · simp only [Bool.not_eq_true] at hk
      simp only [hk] at h
      rw [List.filter_cons]
      by_cases hqa : q (a, b)
      · rw [if_pos hqa, List.lookup]
        simp only [hk]
        exact ih hnd.2 h
      · rw [if_neg hqa]
        exact ih hnd.2 h

/-- C4 (amended): when the background process of a tracked tunnel is no
longer running, the next `list_tunnels` drops its record and no longer
reports it, while leaving the `PortAllocator` state untouched (the port is
*not* released); and a `create_tunnel` for that instance discards the dead
record, recreates the tunnel, and — because `allocate` is idempotent —
returns the very port the allocator still holds for that instance, again
leaving the allocator unchanged. -/
theorem tunnel_dead_cleanup_amended (tm : TunnelManager) (running : Nat → Bool)
    (key : String) (info : TunnelInfo) (p : Nat) (host : String) (sp rp : Nat)
    (kp : String) (avail : Nat → Bool) (spawn : SpawnResult) (now : String)
    (hnd : (tm.tunnels.map Prod.fst).Nodup)
    (hl : tm.tunnels.lookup key = some info)
    (hpid : info.pid ≠ 0) (hdead : running info.pid = false)
    (hpa : tm.port_allocator.allocations.lookup key = some p)
    (halive : spawn.aliveAfterGrace = true) :
    (tm.list_tunnels running).1.lookup key = none ∧
    (tm.list_tunnels running).2.port_allocator = tm.port_allocator ∧
    ∃ tm', tm.create_tunnel (.str key) host sp rp kp running avail spawn now =
        .ok (p, tm') ∧ tm'.port_allocator = tm.port_allocator := by
  refine ⟨?_, rfl, ?_⟩
  · rw [TunnelManager.list_tunnels]
    simp only [TunnelManager.cleanup_dead_tunnels]
    apply alist_lookup_filter_of_nodup _ hnd hl
    simp [hpid, hdead]
  · rw [TunnelManager.create_tunnel]
    simp only [pyStr, hl, hdead, Bool.false_eq_true, if_false]
    rw [TunnelManager.create_tunnel_fresh]
    simp only [PortAllocator.allocate, pyStr, hpa, halive, if_true]
    exact ⟨_, rfl, rfl⟩

/-- Witness for C4's amended statement, at the concrete one-tunnel state
`tmC4` with a dead process. -/
theorem tunnel_dead_cleanup_amended_witness :
    (tmC4.list_tunnels (fun _ => false)).1.lookup "1" = none ∧
    (tmC4.list_tunnels (fun _ => false)).2.port_allocator = tmC4.port_allocator ∧
    ∃ tm', tmC4.create_tunnel (.str "1") "h" 22 8188 "k" (fun _ => false)
        (fun _ => true) { pid := 7777, aliveAfterGrace := true } "t1" =
        .ok (8188, tm') ∧ tm'.port_allocator = tmC4.port_allocator :=
  tunnel_dead_cleanup_amended tmC4 (fun _ => false) "1" tunC4 8188 "h" 22 8188
    "k" (fun _ => true) { pid := 7777, aliveAfterGrace := true } "t1"
    (by decide) (by decide) (by decide) (by decide) (by decide) (by decide)

/-- C4 counterexample: with every port bindable on the OS, after the dead
tunnel of instance "1" is cleaned up, its port 8188 is *not* available for
reuse — the allocator still maps "1" to 8188, and the next allocation (for
instance "2") skips 8188 and hands out 8189. -/
theorem tunnel_dead_port_not_released_counterexample :
    ((tmC4.list_tunnels (fun _ => false)).2.port_allocator.allocations.lookup
        "1" = some 8188) ∧
    (((tmC4.list_tunnels (fun _ => false)).2.port_allocator.allocate
        (.str "2") (fun _ => true)).map Prod.fst = some 8189) := by
  constructor
  · decide
  · decide

/-- Every stopping iteration of the `create_and_monitor.py` loop issues a
destroy request exactly when it stops with `destroyed`. -/
theorem guardStep_halt_inv {s t : Nat} {fs : Option Nat} {p : PollOutcome}
    {r : GuardResult} {d : Nat} (h : guardStep s fs t p = .halt r d) :
    (r = .destroyed ∧ d = 1) ∨ d = 0 := by
  unfold guardStep at h
  split at h
  · split at h
    · cases h
    · split at h
      · cases h
        simp
      · cases h
    · split at h
      · split at h
        · cases h
          simp
        · cases h
      · split at h
        · cases h
        · split at h
          · cases h
            simp
          · split at h
            · cases h
              simp
            · cases h
  · cases h
    simp

/-- C9: whenever the `create_and_monitor.py` loop ends by exhausting its
60-minute wall-clock budget, it has issued no destroy request at all and
the returned result is a failure (`False`), never a success. -/
theorem guard_timeout_no_destroy (s : Nat) (fs : Option Nat)
    (polls : List (Nat × PollOutcome))
    (h : (runGuard s fs polls).result = .timeout) :
    (runGuard s fs polls).destroys = 0 ∧
      ((runGuard s fs polls).result).isSuccess = false := by
  induction polls generalizing fs with
  | nil => simp [runGuard] at h
  | cons hd rest ih =>
    obtain ⟨t, p⟩ := hd
    rw [runGuard] at h ⊢
    cases hstep : guardStep s fs t p with
    | halt r d =>
      rw [hstep] at h
      dsimp only at h ⊢
      rcases guardStep_halt_inv hstep with ⟨hr, _⟩ | hd0
      · rw [hr] at h
        exact absurd h (by simp)
      · exact ⟨hd0, by rw [h]; rfl⟩
    | cont fs' =>
      rw [hstep] at h
      dsimp only at h
      exact ih fs' h

/-- Witness for C9: a trace whose first poll arrives after the budget. -/
theorem guard_timeout_no_destroy_witness :
    (runGuard 0 none [(3600, .noRecord)]).destroys = 0 ∧
      ((runGuard 0 none [(3600, .noRecord)]).result).isSuccess = false :=
  guard_timeout_no_destroy 0 none [(3600, .noRecord)] (by decide)

/-- C1 counterexample: in `start_monitoring_with_failsafe`, a poll on which
the InstanceRecord cannot be fetched leaves the failure timer alone
(`.cont none` from the `none` state), whereas a poll whose script output
contains `SSH_NOT_READY` sets it to the current time — the two branches do
*not* treat the timer alike, contradicting the claim at this input. -/
theorem guard_noRecord_timer_counterexample :
    guardStep 0 none 100 .noRecord = .cont none ∧
      guardStep 0 none 100 (.script true true "SSH_NOT_READY") =
        .cont (some 100) ∧
      .cont (some (100 : Nat)) ≠ StepRes.cont none := by
  refine ⟨by decide, by decide, by decide⟩

/-- C1 (amended): within the wall-clock budget, the failure timer of
`create_and_monitor.py` (a) is left unchanged — in particular never
started — by a poll that fails to fetch the InstanceRecord, (b) starts at
the current reading on a record-fetched poll without SSH connection info,
(c) is (re)started at the current reading on a poll whose script output
carries a connection-error tag, and (d) is reset to zero by any poll whose
record is fetched and whose script output carries no connection-error tag,
even when the status is not `READY`. -/
theorem guard_failure_timer_amended (s : Nat) (fs : Option Nat) (t : Nat)
    (ht : t < s + 3600) :
    (guardStep s fs t .noRecord = .cont fs) ∧
    (fs = none → guardStep s fs t .noSsh = .cont (some t)) ∧
    (∀ hs st, guardStep s fs t (.script true hs st) = .cont (some t)) ∧
    (∀ st, st ≠ "READY" → st ≠ "ERROR" →
      guardStep s fs t (.script false true st) = .cont none) ∧
    (∀ st, guardStep s fs t (.script false false st) = .cont none) := by
  refine ⟨?_, ?_, ?_, ?_, ?_⟩
  · rw [guardStep, if_pos ht]
  · intro hfs
    subst hfs
    rw [guardStep, if_pos ht]
    simp
  · intro hs st
    rw [guardStep, if_pos ht]
    simp
  · intro st h1 h2
    rw [guardStep, if_pos ht]
    simp [h1, h2]
  · intro st
    rw [guardStep, if_pos ht]
    simp

/-- Witness for C1's amended statement at a concrete in-budget poll. -/
theorem guard_failure_timer_amended_witness :
    guardStep 0 (some 5) 100 .noRecord = .cont (some 5) ∧
      guardStep 0 (some 5) 100 (.script false true "DOWNLOADING") =
        .cont none :=
  ⟨(guard_failure_timer_amended 0 (some 5) 100 (by decide)).1,
    (guard_failure_timer_amended 0 (some 5) 100 (by decide)).2.2.2.1
      "DOWNLOADING" (by decide) (by decide)⟩

/-- C2 (bug evaluation): a run of `create_and_monitor.py`'s loop observing
twenty consecutive `SSH_NOT_READY` script results — 190 seconds of
continuous SSH-level failure, past the 3-minute threshold — is still
polling with zero destroy requests issued, because lines 94–98 reset the
failure timer whenever SSH connection info is available, before the output
is checked for error tags.  The `create_and_monitor_config.py` variant,
which deliberately skips that premature reset ("don't reset timer until
actual SSH works"), destroys exactly once on the same trace, as the claim
and the script's own banner ("If SSH connection fails for 3 minutes,
instance will be automatically destroyed") demand. -/
theorem guard_ssh_not_ready_no_destroy_bug :
    runGuard 0 none sshNotReadyTrace =
        { result := .exhausted, destroys := 0 } ∧
      runGuardCfg 0 none sshNotReadyTrace =
        { result := .destroyed, destroys := 1 } := by
  refine ⟨by decide, by decide⟩

/-- The writes of the polling loop are rank-monotone after any status of
rank at most `executing`, whatever the execution-started flag. -/
theorem statusWrites_chain (polls : List JobPoll) :
    ∀ (ex : Bool) (c : String), statusRank c ≤ 2 →
      List.Chain' (fun a b => statusRank a ≤ statusRank b)
        (c :: statusWrites polls ex) := by
  induction polls with
  | nil =>
    intro ex c hc
    rw [statusWrites, List.chain'_cons]
    constructor
    · have h3 : statusRank "timeout" = 3 := by decide
      omega
    · simp
  | cons poll rest ih =>
    intro ex c hc
    rw [statusWrites]
    by_cases hs : (!ex && poll.newLines.any lineHasExecMarker) = true
    · rw [if_pos hs]
      by_cases hh : poll.historyFound
      · rw [if_pos hh]
        refine List.chain'_cons.mpr ⟨?_, List.chain'_cons.mpr ⟨by decide, by simp⟩⟩
        have h2 : statusRank "executing" = 2 := by decide
        omega
      · rw [if_neg hh]
        refine List.chain'_cons.mpr ⟨?_, ih true "executing" (by decide)⟩
        have h2 : statusRank "executing" = 2 := by decide
        omega
    · rw [if_neg hs]
      by_cases hh : poll.historyFound
      · rw [if_pos hh]
        refine List.chain'_cons.mpr ⟨?_, by simp⟩
        have h3 : statusRank "completed" = 3 := by decide
        omega
      · rw [if_neg hh]
        exact ih ex c hc

/-- C3 counterexample: `update_job_status` has no monotonicity guard, so a
status update *can* replace a terminal status with an earlier one.
Concretely: a file that a first tracker run left in terminal status
`completed` is overwritten with `running` by the very first update of a
second `monitor_job_progress` run on the same file (comfyui_api.py line
865, e.g. a `monitor_job.py` re-run) — a rank regression; accordingly the
write sequence of two back-to-back runs, applied to the file after its
initial `queued`, is not rank-monotone. -/
theorem job_status_regression_counterexample :
    ((update_job_status
        (update_job_status createJobLogFile "completed" (some 5) "T1")
        "running" none "T2").status = "running") ∧
      statusRank "running" < statusRank "completed" ∧
      ¬ List.Chain' (fun a b => statusRank a ≤ statusRank b)
        ("queued" ::
          (monitor_job_status_writes [{ historyFound := true, newLines := [] }] ++
            monitor_job_status_writes
              [{ historyFound := true, newLines := [] }])) := by
  refine ⟨by decide, by decide, ?_⟩
  intro h
  have hl : ("queued" ::
      (monitor_job_status_writes [{ historyFound := true, newLines := [] }] ++
        monitor_job_status_writes [{ historyFound := true, newLines := [] }])) =
      ["queued", "running", "completed", "running", "completed"] := by decide
  rw [hl] at h
  rcases List.chain'_cons.mp h with ⟨_, h⟩
  rcases List.chain'_cons.mp h with ⟨_, h⟩
  rcases List.chain'_cons.mp h with ⟨h3, _⟩
  exact absurd h3 (by decide)

/-- C3 (amended): over any *single* run of `monitor_job_progress`, the
statuses written into the job metadata file — starting from the `queued`
the file is created with — only move forward through the lifecycle
(queued → running → executing → terminal), and in particular no update of
that run replaces a terminal status with an earlier one; across runs there
is no such guard — a later tracker run on the same file begins by writing
`running` over a terminal status. -/
theorem job_status_writes_monotone (polls : List JobPoll) :
    List.Chain' (fun a b => statusRank a ≤ statusRank b)
      ("queued" :: monitor_job_status_writes polls) := by
  rw [monitor_job_status_writes]
  exact List.chain'_cons.mpr
    ⟨by decide, statusWrites_chain polls false "running" (by decide)⟩

/-- Stripping leading newlines is idempotent. -/
theorem pyLstripNewlines_idem (s : String) :
    pyLstripNewlines (pyLstripNewlines s) = pyLstripNewlines s := by
  simp [pyLstripNewlines, List.dropWhile_idempotent]

/-- Stripping leading newlines does nothing to a string that does not begin
with one. -/
theorem pyLstripNewlines_of_head_ne (s : String)
    (h : s.data.head? ≠ some '\n') : pyLstripNewlines s = s := by
  rw [pyLstripNewlines]
  have hdw : s.data.dropWhile (fun c => c == '\n') = s.data := by
    cases hd : s.data with
    | nil => rfl
    | cons c rest =>
      rw [hd] at h
      simp only [List.head?_cons, ne_eq, Option.some.injEq] at h
      rw [List.dropWhile_cons, if_neg (by simpa using h)]
  rw [hdw]

/-- The log section after `update_job_status` is the old one with leading
newlines stripped, whatever the status and duration arguments. -/
theorem update_job_status_body (f : JobLogFile) (s : String)
    (td : Option Nat) (now : String) :
    (update_job_status f s td now).body = pyLstripNewlines f.body := by
  cases td with
  | none => rfl
  | some d =>
    simp only [update_job_status]
    split
    · rfl
    · rfl

/-- C5 (amended): rewriting the metadata header twice in succession leaves
the appended log section byte-for-byte unchanged (the second rewrite is the
identity on it), for both `update_job_status` and
`update_job_performance_metrics`; a header rewrite preserves the log
section byte-for-byte whenever it does not begin with a newline character
(which is the case for every section built purely from timestamped
`append_terminal_output` lines) — its only effect otherwise is to strip
leading newlines, so it can shorten such a section; and appends only ever
extend the section. -/
theorem header_rewrite_log_section_amended (f : JobLogFile) (s s2 : String)
    (td td2 : Option Nat) (now now2 : String) (u u2 : PerfUpdates) :
    ((update_job_status (update_job_status f s td now) s2 td2 now2).body =
      (update_job_status f s td now).body) ∧
    ((update_job_performance_metrics
        (update_job_performance_metrics f u) u2).body =
      (update_job_performance_metrics f u).body) ∧
    (f.body.data.head? ≠ some '\n' →
      (update_job_status f s td now).body = f.body ∧
      (update_job_performance_metrics f u).body = f.body) ∧
    (∀ (new_lines : List String) (ts : String), ∃ suffix,
      (append_terminal_output f new_lines ts).body = f.body ++ suffix) := by
  refine ⟨?_, ?_, ?_, ?_⟩
  · rw [update_job_status_body, update_job_status_body, pyLstripNewlines_idem]
  · show pyLstripNewlines (pyLstripNewlines f.body) = pyLstripNewlines f.body
    exact pyLstripNewlines_idem f.body
  · intro h
    exact ⟨by rw [update_job_status_body, pyLstripNewlines_of_head_ne _ h],
      pyLstripNewlines_of_head_ne _ h⟩
  · intro new_lines ts
    exact ⟨_, rfl⟩

/-- Witness for C5's amended statement, on a file whose log section is a
single timestamped line. -/
theorem header_rewrite_log_section_amended_witness :
    (update_job_status
        (append_terminal_output createJobLogFile ["hi"] "12:00:00")
        "running" none "T1").body =
      (append_terminal_output createJobLogFile ["hi"] "12:00:00").body :=
  ((header_rewrite_log_section_amended
      (append_terminal_output createJobLogFile ["hi"] "12:00:00")
      "running" "running" none none "T1" "T1" {} {}).2.2.1 (by decide)).1

/-- C5 counterexample: after a completion with no captured terminal output,
`append_execution_summary` leaves the log section starting with a newline;
the next header rewrite (`update_job_status`, e.g. from a re-run of
`monitor_job.py` on the same file) strips it, shortening the appended log
section, contrary to the claim that a header rewrite never truncates or
shortens it. -/
theorem header_rewrite_shortens_counterexample :
    (update_job_status jobFileAfterSummary "running" none "T2").body ≠
        jobFileAfterSummary.body ∧
      (update_job_status jobFileAfterSummary "running" none "T2").body.length <
        jobFileAfterSummary.body.length := by
  refine ⟨by decide, by decide⟩

/-- A prefix test does not look past the first list when that list is long
enough. -/
theorem isPrefixOf_append_of_le {p : List Char} :
    ∀ {a : List Char} (b : List Char), p.length ≤ a.length →
      p.isPrefixOf (a ++ b) = p.isPrefixOf a := by
  induction p with
  | nil => intro a b _; simp [List.isPrefixOf]
  | cons c p' ih =>
    intro a b hlen
    cases a with
    | nil => simp at hlen
    | cons d a' =>
      simp only [List.cons_append, List.isPrefixOf, List.append_eq]
      rw [ih b (by simpa using hlen)]

/-- A short non-prefix of the pattern blocks the pattern from being a
prefix of anything it heads. -/
theorem isPrefixOf_append_of_not {p : List Char} :
    ∀ {a : List Char} (b : List Char), a.length ≤ p.length →
      a.isPrefixOf p = false → p.isPrefixOf (a ++ b) = false := by
  induction p with
  | nil =>
    intro a b hlen hnp
    cases a with
    | nil => simp [List.isPrefixOf] at hnp
    | cons c a' => simp at hlen
  | cons d p' ih =>
    intro a b hlen hnp
    cases a with
    | nil => simp [List.isPrefixOf] at hnp
    | cons c a' =>
      simp only [List.isPrefixOf, Bool.and_eq_false_iff] at hnp
      simp only [List.cons_append, List.isPrefixOf, Bool.and_eq_false_iff]
      rcases hnp with hcd | hrest
      · left
        have : ¬ c = d := by simpa using hcd
        simp [beq_iff_eq]
        intro hdc
        exact this hdc.symm
      · right
        exact ih b (by simpa using hlen) hrest

/-- A line starting with a long enough literal other than `STATUS:` never
passes the parser's `startswith('STATUS:')` test. -/
theorem pyStartsWith_append_long (a r : String)
    (h : ("STATUS:" : String).data.isPrefixOf a.data = false)
    (hlen : ("STATUS:" : String).data.length ≤ a.data.length) :
    pyStartsWith (a ++ r) "STATUS:" = false := by
  rw [pyStartsWith, String.data_append, isPrefixOf_append_of_le _ hlen]
  exact h

/-- A line starting with a short literal that is not itself a prefix of
`STATUS:` never passes the parser's `startswith('STATUS:')` test. -/
theorem pyStartsWith_append_short (a r : String)
    (h : a.data.isPrefixOf ("STATUS:" : String).data = false)
    (hlen : a.data.length ≤ ("STATUS:" : String).data.length) :
    pyStartsWith (a ++ r) "STATUS:" = false := by
  rw [pyStartsWith, String.data_append]
  exact isPrefixOf_append_of_not _ hlen h

/-- Only `STATUS:`-prefixed lines can change the parser's status field. -/
theorem parseStatusLine_status (acc : StatusData × Option OutSection)
    (line : String) (h : pyStartsWith line "STATUS:" = false) :
    (parseStatusLine acc line).1.status = acc.1.status := by
  rw [parseStatusLine, if_neg (by rw [h]; exact Bool.false_ne_true)]
  by_cases h2 : pyStartsWith line "DETAILS:" = true
  · rw [if_pos h2]
  · rw [if_neg h2]
    by_cases h3 : pyStartsWith line "ELAPSED_TIME:" = true
    · rw [if_pos h3]
    · rw [if_neg h3]
      by_cases h4 : pyStartsWith line "TUNNEL_URLS:" = true
      · rw [if_pos h4]
      · rw [if_neg h4]
        by_cases h5 : pyStartsWith line "LAST_LOG:" = true
        · rw [if_pos h5]
        · rw [if_neg h5]
          by_cases h6 : pyStartsWith line "CURRENT_DOWNLOAD:" = true
          · rw [if_pos h6]
          · rw [if_neg h6]
            by_cases h7 : pyStartsWith line "ERROR_DETAILS:" = true
            · rw [if_pos h7]
            · rw [if_neg h7]
              by_cases h8 : pyStartsWith line "STORAGE_INFO:" = true
              · rw [if_pos h8]
              · rw [if_neg h8]
                by_cases h9 : (acc.2 == some OutSection.urls && line.data.contains ':') = true
                · rw [if_pos h9]
                  cases splitFirst ": " line with
                  | some q => rfl
                  | none => rfl
                · rw [if_neg h9]
                  by_cases h10 : (acc.2 == some OutSection.log && pyStartsWith line "  ") = true
                  · rw [if_pos h10]
                  · rw [if_neg h10]
                    by_cases h11 : (acc.2 == some OutSection.download && pyStartsWith line "  ") = true
                    · rw [if_pos h11]
                    · rw [if_neg h11]
                      by_cases h12 : (acc.2 == some OutSection.error && pyStartsWith line "  ") = true
                      · rw [if_pos h12]
                      · rw [if_neg h12]
                        by_cases h13 : (acc.2 == some OutSection.storage && pyStrip line != "") = true
                        · rw [if_pos h13]
                        · rw [if_neg h13]

/-- Folding the parser over status-free lines preserves the status field. -/
theorem parse_foldl_status (lines : List String) :
    ∀ (acc : StatusData × Option OutSection),
      (∀ l ∈ lines, pyStartsWith l "STATUS:" = false) →
      ((lines.foldl parseStatusLine acc).1).status = acc.1.status := by
  induction lines with
  | nil => intro acc _; rfl
  | cons hd tl ih =>
    intro acc hsafe
    rw [List.foldl_cons]
    rw [ih _ (fun l hl => hsafe l (List.mem_cons_of_mem _ hl))]
    exact parseStatusLine_status acc hd (hsafe hd (List.mem_cons_self _ _))

/-- No elapsed-time line looks like a status line. -/
theorem elapsedLines_safe (env : RemoteEnv) :
    ∀ l ∈ elapsedLines env, pyStartsWith l "STATUS:" = false := by
  intro l hl
  rw [elapsedLines] at hl
  cases hlog : env.onstartLog with
  | none =>
    rw [hlog] at hl
    simp at hl
  | some lg =>
    rw [hlog] at hl
    dsimp only at hl
    split at hl
    · simp only [List.mem_singleton] at hl
      subst hl
      exact pyStartsWith_append_long _ _ (by decide) (by decide)
    · simp only [List.mem_singleton] at hl
      subst hl
      exact pyStartsWith_append_long _ _ (by decide) (by decide)

/-- No tunnel-URL line looks like a status line. -/
theorem tunnelUrlsLines_safe (env : RemoteEnv) :
    ∀ l ∈ tunnelUrlsLines env, pyStartsWith l "STATUS:" = false := by
  intro l hl
  rw [tunnelUrlsLines] at hl
  rcases List.mem_cons.mp hl with rfl | hl
  · decide
  · obtain ⟨su, _, rfl⟩ := List.mem_map.mp hl
    unfold urlServiceLabel
    split
    · exact pyStartsWith_append_long _ _ (by decide) (by decide)
    · exact pyStartsWith_append_long _ _ (by decide) (by decide)
    · exact pyStartsWith_append_long _ _ (by decide) (by decide)
    · exact pyStartsWith_append_long _ _ (by decide) (by decide)
    · exact pyStartsWith_append_long _ _ (by decide) (by decide)
    · exact pyStartsWith_append_long _ _ (by decide) (by decide)

/-- No storage-info line looks like a status line. -/
theorem storageLines_safe (env : RemoteEnv) :
    ∀ l ∈ storageLines env, pyStartsWith l "STATUS:" = false := by
  intro l hl
  rw [storageLines] at hl
  rcases List.mem_cons.mp hl with rfl | hl
  · decide
  · simp only [List.mem_singleton] at hl
    subst hl
    exact pyStartsWith_append_short _ _ (by decide) (by decide)

/-- No two-space-indented line looks like a status line. -/
theorem indent2_safe (xs : List String) :
    ∀ l ∈ xs.map indent2, pyStartsWith l "STATUS:" = false := by
  intro l hl
  obtain ⟨x, _, rfl⟩ := List.mem_map.mp hl
  rw [indent2]
  exact pyStartsWith_append_short _ _ (by decide) (by decide)

/-- No current-download line looks like a status line. -/
theorem currentDownloadLines_safe (log : List String) :
    ∀ l ∈ currentDownloadLines log, pyStartsWith l "STATUS:" = false := by
  intro l hl
  rw [currentDownloadLines] at hl
  split at hl
  · rcases List.mem_cons.mp hl with rfl | hl
    · decide
    · exact indent2_safe _ l hl
  · split at hl
    · rcases List.mem_cons.mp hl with rfl | hl
      · decide
      · exact indent2_safe _ l hl
    · simp at hl

/-- C7: the classification produced by running the status script and
parsing its output applies the strict priority order of the script's
`if`/`elif` chain: a present completion marker yields `READY` no matter
which other markers are present; otherwise the provisioning-complete
marker yields `STARTING_APP`; otherwise the downloading marker yields
`DOWNLOADING`; otherwise the sentinel file or provisioning marker yields
`PROVISIONING`; otherwise `INITIALIZING`. -/
theorem status_priority_order (env : RemoteEnv) :
    (hasMarker (env.onstartLog.getD []) "To see the GUI go to:" = true →
      (parse_status_output (create_status_script_output env)).status =
        "READY") ∧
    (hasMarker (env.onstartLog.getD []) "To see the GUI go to:" = false →
      hasMarker (env.onstartLog.getD []) "Provisioning complete!" = true →
      (parse_status_output (create_status_script_output env)).status =
        "STARTING_APP") ∧
    (hasMarker (env.onstartLog.getD []) "To see the GUI go to:" = false →
      hasMarker (env.onstartLog.getD []) "Provisioning complete!" = false →
      (env.onstartLog.getD []).any downloadLineMarker = true →
      (parse_status_output (create_status_script_output env)).status =
        "DOWNLOADING") ∧
    (hasMarker (env.onstartLog.getD []) "To see the GUI go to:" = false →
      hasMarker (env.onstartLog.getD []) "Provisioning complete!" = false →
      (env.onstartLog.getD []).any downloadLineMarker = false →
      (env.provisioningSentinel ||
        hasMarker (env.onstartLog.getD []) "Provisioning container") = true →
      (parse_status_output (create_status_script_output env)).status =
        "PROVISIONING") ∧
    (hasMarker (env.onstartLog.getD []) "To see the GUI go to:" = false →
      hasMarker (env.onstartLog.getD []) "Provisioning complete!" = false →
      (env.onstartLog.getD []).any downloadLineMarker = false →
      env.provisioningSentinel = false →
      hasMarker (env.onstartLog.getD []) "Provisioning container" = false →
      (parse_status_output (create_status_script_output env)).status =
        "INITIALIZING") := by
  refine ⟨?_, ?_, ?_, ?_, ?_⟩
  · intro hc
    rw [create_status_script_output, if_pos hc, parse_status_output,
      List.foldl_cons]
    refine (parse_foldl_status _ _ ?_).trans (by decide)
    intro l hl
    rcases List.mem_cons.mp hl with rfl | hl
    · decide
    rcases List.mem_append.mp hl with hl | hl
    · exact elapsedLines_safe env l hl
    rcases List.mem_append.mp hl with hl | hl
    · exact tunnelUrlsLines_safe env l hl
    rcases List.mem_append.mp hl with hl | hl
    · exact storageLines_safe env l hl
    rcases List.mem_cons.mp hl with rfl | hl
    · decide
    · exact indent2_safe _ l hl
  · intro h1 hc
    rw [create_status_script_output,
      if_neg (by rw [h1]; exact Bool.false_ne_true), if_pos hc,
      parse_status_output, List.foldl_cons]
    refine (parse_foldl_status _ _ ?_).trans (by decide)
    intro l hl
    rcases List.mem_cons.mp hl with rfl | hl
    · decide
    rcases List.mem_append.mp hl with hl | hl
    · exact elapsedLines_safe env l hl
    rcases List.mem_append.mp hl with hl | hl
    · exact tunnelUrlsLines_safe env l hl
    rcases List.mem_append.mp hl with hl | hl
    · exact storageLines_safe env l hl
    rcases List.mem_cons.mp hl with rfl | hl
    · decide
    · exact indent2_safe _ l hl
  · intro h1 h2 hc
    rw [create_status_script_output,
      if_neg (by rw [h1]; exact Bool.false_ne_true),
      if_neg (by rw [h2]; exact Bool.false_ne_true), if_pos hc,
      parse_status_output, List.foldl_cons]
    refine (parse_foldl_status _ _ ?_).trans (by decide)
    intro l hl
    rcases List.mem_cons.mp hl with rfl | hl
    · exact pyStartsWith_append_long _ _ (by decide) (by decide)
    rcases List.mem_append.mp hl with hl | hl
    · exact elapsedLines_safe env l hl
    rcases List.mem_append.mp hl with hl | hl
    · exact currentDownloadLines_safe _ l hl
    rcases List.mem_append.mp hl with hl | hl
    · exact storageLines_safe env l hl
    rcases List.mem_cons.mp hl with rfl | hl
    · decide
    · exact indent2_safe _ l hl
  · intro h1 h2 h3 hc
    rw [create_status_script_output,
      if_neg (by rw [h1]; exact Bool.false_ne_true),
      if_neg (by rw [h2]; exact Bool.false_ne_true),
      if_neg (by rw [h3]; exact Bool.false_ne_true), if_pos hc,
      parse_status_output, List.foldl_cons]
    refine (parse_foldl_status _ _ ?_).trans (by decide)
    intro l hl
    rcases List.mem_cons.mp hl with rfl | hl
    · decide
    rcases List.mem_append.mp hl with hl | hl
    · exact elapsedLines_safe env l hl
    rcases List.mem_append.mp hl with hl | hl
    · exact storageLines_safe env l hl
    rcases List.mem_cons.mp hl with rfl | hl
    · decide
    · exact indent2_safe _ l hl
  · intro h1 h2 h3 h4 h5
    rw [create_status_script_output,
      if_neg (by rw [h1]; exact Bool.false_ne_true),
      if_neg (by rw [h2]; exact Bool.false_ne_true),
      if_neg (by rw [h3]; exact Bool.false_ne_true),
      if_neg (by simp [h4, h5]),
      parse_status_output, List.foldl_cons]
    refine (parse_foldl_status _ _ ?_).trans (by decide)
    intro l hl
    rcases List.mem_cons.mp hl with rfl | hl
    · decide
    rcases List.mem_append.mp hl with hl | hl
    · exact storageLines_safe env l hl
    · cases hlog : env.onstartLog with
      | none =>
        rw [hlog] at hl
        simp at hl
      | some lg =>
        rw [hlog] at hl
        dsimp only at hl
        rcases List.mem_cons.mp hl with rfl | hl
        · decide
        · exact indent2_safe _ l hl

/-- Witness for C7: a remote state in which every marker is present at once
is classified `READY`. -/
theorem status_priority_order_witness :
    (parse_status_output (create_status_script_output envAllMarkers)).status =
      "READY" :=
  (status_priority_order envAllMarkers).1 (by decide)
